import Mathlib

/-!
Verification of the natural-language-to-DSL pipeline of TerraSmart
(`apps/cli/terrasmartrun/llm.py` and `apps/cli/terrasmartrun/dsl.py`).

Python strings are modelled as `List Char` (named `Str` below), Python
dictionaries holding the DSL document as a structure with `Option` fields
(`none` models an absent key), and Python functions that can raise as
functions into `Option`/`Except` (`none`/`error` models the raised
exception).  Python truthiness of an optional string (`if config.default_zone:`)
is `truthy` below: `None` and the empty string are falsy.
-/

/-- Python `str` modelled as a list of characters. -/
abbrev Str := List Char

/-- `s.lower()` (ASCII; the repository only manipulates ASCII keywords). -/
def pyLower (s : Str) : Str := s.map Char.toLower

/-- Python `needle in hay` substring containment. -/
def isSubstring (needle : Str) : Str → Bool
  | [] => needle.isPrefixOf []
  | c :: t => needle.isPrefixOf (c :: t) || isSubstring needle t

/-- Python `s.split(sep)` for a one-character separator: splits at every
occurrence, keeping empty chunks; `"".split(".") == [""]`. -/
def splitOnChar (sep : Char) : Str → List Str
  | [] => [[]]
  | c :: t =>
    if c = sep then [] :: splitOnChar sep t
    else
      match splitOnChar sep t with
      | [] => [[c]]
      | h :: r => (c :: h) :: r

/-- Python truthiness of an `Optional[str]`: `None` and `""` are falsy. -/
def truthy : Option Str → Bool
  | none => false
  | some s => !s.isEmpty

/-- Falsiness test used by `elif not hostname:` in the fallback parser,
where `hostname` is `None` or a string. -/
def optFalsy : Option Str → Bool
  | none => true
  | some s => s.isEmpty

/-- Python `\s` on ASCII text: space, tab, newline, carriage return,
form feed, vertical tab. -/
def isPySpace (c : Char) : Bool :=
  c == ' ' || c == '\t' || c == '\n' || c == '\r' || c == '\x0b' || c == '\x0c'

/-- Python `s.strip()` (ASCII whitespace). -/
def pyStrip (s : Str) : Str :=
  ((s.dropWhile isPySpace).reverse.dropWhile isPySpace).reverse

/-- Character class `[a-z0-9.-]` of the hostname-extraction regexes in
`_fallback_parser` (llm.py lines 88-91). -/
def isHostChar (c : Char) : Bool :=
  decide (('a' ≤ c ∧ c ≤ 'z') ∨ ('0' ≤ c ∧ c ≤ '9') ∨ c = '.' ∨ c = '-')

/-- Character class `[a-z]`. -/
def isAsciiLower (c : Char) : Bool := decide ('a' ≤ c ∧ c ≤ 'z')

/-- Backtracking attempt of `[a-z0-9.-]+\.[a-z]{2,}` at the start of `s`,
with the `+` trying length `j` (from greedy-longest downwards, as the `re`
engine does), returning the matched text.  After the literal dot the final
`[a-z]{2,}` greedily takes the whole letter run and needs at least two
letters. -/
def matchDomainAux (s : Str) : Nat → Option Str
  | 0 => none
  | j + 1 =>
    match s.drop (j + 1) with
    | c :: rest =>
      if c = '.' then
        let letters := rest.takeWhile isAsciiLower
        if letters.length ≥ 2 then some (s.take (j + 1) ++ '.' :: letters)
        else matchDomainAux s j
      else matchDomainAux s j
    | [] => matchDomainAux s j

/-- Match of `[a-z0-9.-]+\.[a-z]{2,}` anchored at the start of `s`:
the `+` can consume at most the maximal run of `[a-z0-9.-]` characters. -/
def matchDomainAt (s : Str) : Option Str :=
  matchDomainAux s (s.takeWhile isHostChar).length

/-- `re.search` of the bare domain pattern `([a-z0-9.-]+\.[a-z]{2,})`:
leftmost start position wins. -/
def searchBareDomain : Str → Option Str
  | [] => none
  | c :: rest =>
    match matchDomainAt (c :: rest) with
    | some m => some m
    | none => searchBareDomain rest

/-- The lazy gap `.*?` before the capture group in the first hostname
pattern: try a zero-length gap first, then grow one character at a time;
`.` does not match a newline. -/
def lazyGapSearch : Str → Option Str
  | [] => none
  | c :: rest =>
    match matchDomainAt (c :: rest) with
    | some m => some m
    | none => if c = '\n' then none else lazyGapSearch rest

/-- Alternation `(?:conecta|bind|domain|host)` tried in order at one start
position; on success of a branch the gap-plus-group part must also match,
otherwise the next branch is tried. -/
def tryVerbWords : List Str → Str → Option Str
  | [], _ => none
  | w :: ws, s =>
    if w.isPrefixOf s then
      match lazyGapSearch (s.drop w.length) with
      | some m => some m
      | none => tryVerbWords ws s
    else tryVerbWords ws s

/-- The verb words of the first hostname pattern (llm.py line 89). -/
def verbWords : List Str :=
  ["conecta".toList, "bind".toList, "domain".toList, "host".toList]

/-- `re.search(r'(?:conecta|bind|domain|host).*?([a-z0-9.-]+\.[a-z]{2,})', s)`
returning group 1. -/
def searchVerbDomain : Str → Option Str
  | [] => none
  | c :: rest =>
    match tryVerbWords verbWords (c :: rest) with
    | some m => some m
    | none => searchVerbDomain rest

/-- The hostname-extraction loop of `_fallback_parser` (llm.py lines 88-98):
first pattern with a match wins. -/
def extractHostname (prompt_lower : Str) : Option Str :=
  match searchVerbDomain prompt_lower with
  | some m => some m
  | none => searchBareDomain prompt_lower

/-- Backtracking tail of the content pattern
`(?:diga|contenido|content)["\s]*([^"]+)`: the greedy `["\s]*` tries gap
length `m` downwards; the group `([^"]+)` then greedily takes every
following non-quote character (at least one). -/
def tryQuoteGap (s : Str) : Nat → Option Str
  | 0 =>
    match s with
    | [] => none
    | c :: rest => if c = '"' then none else some (c :: rest.takeWhile (fun d => !(d == '"')))
  | m + 1 =>
    match s.drop (m + 1) with
    | [] => tryQuoteGap s m
    | c :: rest => if c = '"' then tryQuoteGap s m
                   else some (c :: rest.takeWhile (fun d => !(d == '"')))

/-- The keyword alternation `(?:diga|contenido|content)` tried in order at
one start position. -/
def tryContentWords : List Str → Str → Option Str
  | [], _ => none
  | w :: ws, s =>
    if w.isPrefixOf s then
      let s' := s.drop w.length
      match tryQuoteGap s' (s'.takeWhile (fun c => c == '"' || isPySpace c)).length with
      | some g => some g
      | none => tryContentWords ws s
    else tryContentWords ws s

/-- The content keywords of the TXT-content pattern (llm.py line 162). -/
def contentWords : List Str :=
  ["diga".toList, "contenido".toList, "content".toList]

/-- `re.search(r'(?:diga|contenido|content)["\s]*([^"]+)', s)` returning
group 1. -/
def searchContent : Str → Option Str
  | [] => none
  | c :: rest =>
    match tryContentWords contentWords (c :: rest) with
    | some m => some m
    | none => searchContent rest

/-- The `defaults.zone_name` entry of the configuration (`config.py`,
field `default_zone : Optional[str]`); the other configuration fields are
not read by the functions verified here. -/
structure Config where
  default_zone : Option Str
deriving DecidableEq, Repr

/-- The `worker` sub-dictionary; the validator reads its keys with
`.get(key, default)`, so every field is optional. -/
structure Worker where
  name : Option Str
  module : Option Bool
  compatibility_date : Option Str
deriving DecidableEq, Repr

/-- The `routing` sub-dictionary (only ever written, with a literal mode). -/
structure Routing where
  mode : Str
deriving DecidableEq, Repr

/-- The `bindings` sub-dictionary (only ever written, with literal lists). -/
structure Bindings where
  kv : List Str
  d1 : List Str
deriving DecidableEq, Repr

/-- The `dns_record` sub-dictionary; `content`, `ttl` and `proxied` are
absent in the delete-intent shape. -/
structure DnsRecord where
  type : Str
  content : Option Str
  ttl : Option Nat
  proxied : Option Bool
deriving DecidableEq, Repr

/-- A DSL document: the dictionary produced by the interpreters and
consumed by the post-processor and validator.  `none` models an absent
key. -/
structure Document where
  intent : Option Str
  zone_name : Option Str
  hostname : Option Str
  routing : Option Routing
  worker : Option Worker
  bindings : Option Bindings
  dns_record : Option DnsRecord
deriving DecidableEq, Repr

/-- `zone_name` derivation from the hostname (llm.py lines 113-118):
the last two dot-separated labels, or the whole hostname if it has fewer
than two labels. -/
def deriveZone (hostname : Str) : Str :=
  let parts := splitOnChar '.' hostname
  if parts.length ≥ 2 then List.intercalate ['.'] (parts.drop (parts.length - 2))
  else hostname

/-- Worker-name derivation (llm.py lines 133-136): dots and underscores
become hyphens, then the name is cut to 63 characters if longer. -/
def deriveWorkerName (hostname : Str) : Str :=
  let w := (hostname.map (fun c => if c = '.' then '-' else c)).map
            (fun c => if c = '_' then '-' else c)
  if w.length > 63 then w.take 63 else w

/-- Deletion keywords (llm.py line 123). -/
def deletionWords : List Str :=
  ["eliminar".toList, "delete".toList, "borrar".toList, "quitar".toList, "remove".toList]

/-- Record-type keywords guarding `delete_dns_record` (llm.py line 124). -/
def recordWords : List Str :=
  ["dns".toList, "record".toList, "txt".toList, "cname".toList, "a record".toList]

/-- DNS keywords for `create_dns_record` (llm.py line 126). -/
def dnsWords : List Str :=
  ["dns".toList, "record".toList, "cname".toList, "a record".toList]

/-- KV keywords (llm.py line 128). -/
def kvWords : List Str :=
  ["kv".toList, "namespace".toList, "storage".toList]

/-- Database keywords (llm.py line 130). -/
def dbWords : List Str :=
  ["d1".toList, "database".toList, "db".toList]

/-- `any(word in prompt_lower for word in words)`. -/
def anyKeyword (words : List Str) (s : Str) : Bool :=
  words.any (fun w => isSubstring w s)

/-- The intent cascade of `_fallback_parser` (llm.py lines 120-131):
`intent` starts at the worker default and is overwritten by the first
matching branch of the `if`/`elif` chain; note that when a deletion
keyword is present the `elif` branches are skipped even if the inner
record-keyword test fails. -/
def classifyIntent (prompt_lower : Str) : Str :=
  if anyKeyword deletionWords prompt_lower then
    if anyKeyword recordWords prompt_lower then "delete_dns_record".toList
    else "create_worker_and_bind_domain".toList
  else if anyKeyword dnsWords prompt_lower then "create_dns_record".toList
  else if anyKeyword kvWords prompt_lower then "create_kv_namespace".toList
  else if anyKeyword dbWords prompt_lower then "create_d1_database".toList
  else "create_worker_and_bind_domain".toList

/-- Hostname resolution of `_fallback_parser` (llm.py lines 100-111):
the root-domain marker check on the raw text, then the falsiness check on
the regex extraction, then the configured-zone/hard-coded defaults. -/
def resolveHostname (prompt_text prompt_lower : Str) (extracted : Option Str)
    (config : Config) : Str :=
  if isSubstring ['@'] prompt_text || isSubstring "apuntando a @".toList prompt_lower then
    if truthy config.default_zone then config.default_zone.getD []
    else "example.com".toList
  else if optFalsy extracted then
    if truthy config.default_zone then "app.".toList ++ config.default_zone.getD []
    else "app.example.com".toList
  else extracted.getD []

/-- The `create_dns_record` record builder (llm.py lines 153-179). -/
def mkCreateRecord (prompt_lower zone_name : Str) : DnsRecord :=
  if anyKeyword ["txt".toList, "text".toList] prompt_lower then
    { type := "TXT".toList,
      content := some (match searchContent prompt_lower with
        | some g => pyStrip g
        | none =>
          if isSubstring "hello mundo".toList prompt_lower
              || isSubstring "hello world".toList prompt_lower then
            "Hello Mundo".toList
          else "managed-by-terrasmart".toList),
      ttl := some 300, proxied := some false }
  else if isSubstring "cname".toList prompt_lower then
    { type := "CNAME".toList, content := some zone_name,
      ttl := some 300, proxied := some false }
  else if anyKeyword ["a record".toList, "tipo a".toList] prompt_lower then
    { type := "A".toList, content := some "192.0.2.1".toList,
      ttl := some 300, proxied := some false }
  else
    { type := "TXT".toList, content := some "managed-by-terrasmart".toList,
      ttl := some 300, proxied := some false }

/-- The `delete_dns_record` record builder (llm.py lines 180-199):
`content` starts as `None` and the key is only written when the value is
truthy. -/
def mkDeleteRecord (prompt_lower : Str) : DnsRecord :=
  let tc : Str × Option Str :=
    if anyKeyword ["txt".toList, "text".toList] prompt_lower then
      ("TXT".toList,
       if isSubstring "hello".toList prompt_lower then some "Hello Mundo".toList else none)
    else if isSubstring "cname".toList prompt_lower then ("CNAME".toList, none)
    else if anyKeyword ["a record".toList, "tipo a".toList] prompt_lower then
      ("A".toList, none)
    else ("TXT".toList, none)
  { type := tc.1,
    content := match tc.2 with
      | some c => if c.isEmpty then none else some c
      | none => none,
    ttl := none, proxied := none }

/-- `_fallback_parser` (llm.py lines 83-201).  It is a total function:
every operation it performs (regex search, split, join, replace, slicing)
is total, so the Python function never raises. -/
def fallbackInterpreter (prompt_text : Str) (config : Config) : Document :=
  let prompt_lower := pyLower prompt_text
  let hostname :=
    resolveHostname prompt_text prompt_lower (extractHostname prompt_lower) config
  let zone_name := deriveZone hostname
  let intent := classifyIntent prompt_lower
  let base : Document :=
    { intent := some intent, zone_name := some zone_name, hostname := some hostname,
      routing := none, worker := none, bindings := none, dns_record := none }
  if intent = "create_worker_and_bind_domain".toList then
    { base with
        routing := some { mode := "custom_domain".toList },
        worker := some { name := some (deriveWorkerName hostname), module := some true,
                         compatibility_date := some "2024-01-01".toList },
        bindings := some { kv := [], d1 := [] } }
  else if intent = "create_dns_record".toList then
    { base with dns_record := some (mkCreateRecord prompt_lower zone_name) }
  else if intent = "delete_dns_record".toList then
    { base with dns_record := some (mkDeleteRecord prompt_lower) }
  else base

/-- The two DNS intents (llm.py lines 214 and 223). -/
def dnsIntents : List Str := ["create_dns_record".toList, "delete_dns_record".toList]

/-- `dsl_data.get("intent") in ["create_dns_record", "delete_dns_record"]`. -/
def isDnsIntent : Option Str → Bool
  | some s => dnsIntents.contains s
  | none => false

/-- Post-processor rule 1 (llm.py lines 206-211): a literal `"@"`
zone_name becomes the configured default zone, or `"example.com"` when no
truthy default zone exists. -/
def ppFixRootZone (d : Document) (c : Config) : Document :=
  if d.zone_name = some ['@'] then
    if truthy c.default_zone then { d with zone_name := c.default_zone }
    else { d with zone_name := some "example.com".toList }
  else d

/-- Post-processor rule 2 (llm.py lines 213-216): for DNS intents with no
hostname, `hostname` is set to `dsl_data["zone_name"]`; that subscript
raises `KeyError` when `zone_name` is also absent, modelled as `none`. -/
def ppFillHostname (d : Document) : Option Document :=
  if isDnsIntent d.intent ∧ d.hostname = none then
    match d.zone_name with
    | some z => some { d with hostname := some z }
    | none => none
  else some d

/-- Post-processor rule 3 (llm.py lines 218-220): absent `zone_name` is
filled from a truthy configured default zone. -/
def ppFillZone (d : Document) (c : Config) : Document :=
  if d.zone_name = none ∧ truthy c.default_zone then { d with zone_name := c.default_zone }
  else d

/-- Post-processor rule 4 (llm.py lines 222-237): for DNS intents with a
truthy configured default zone, `zone_name` is forced to the default zone
and `hostname` is rebuilt under it. -/
def ppForceZone (d : Document) (c : Config) : Document :=
  if isDnsIntent d.intent ∧ truthy c.default_zone then
    let z := c.default_zone.getD []
    let d' := { d with zone_name := some z }
    if d.hostname = none ∨ d.hostname = some ['@'] ∨ d.hostname = some z then
      { d' with hostname := some z }
    else
      let h := d.hostname.getD []
      if (('.' :: z).isSuffixOf h) = false then
        let parts := splitOnChar '.' h
        if parts.length > 1 then { d' with hostname := some ((parts.headI) ++ '.' :: z) }
        else d'
      else d'
  else d

/-- `_post_process_dsl` (llm.py lines 204-239): the four rules in source
order; `none` models the `KeyError` escape of rule 2. -/
def post_process_dsl (d : Document) (c : Config) : Option Document :=
  match ppFillHostname (ppFixRootZone d c) with
  | none => none
  | some d2 => some (ppForceZone (ppFillZone d2 c) c)

/-- `to_dsl` (llm.py lines 35-45).  `modelOutcome` is the result of
`_call_openai`: `some doc` when the network call, fence stripping and JSON
parsing all succeed, `none` when any of them raises.  The `try` block also
covers `_post_process_dsl`, so a `KeyError` there falls back as well; the
fallback result itself is returned directly, without post-processing. -/
def to_dsl (modelOutcome : Option Document) (prompt_text : Str) (config : Config) :
    Document :=
  match modelOutcome with
  | some m =>
    match post_process_dsl m config with
    | some d => d
    | none => fallbackInterpreter prompt_text config
  | none => fallbackInterpreter prompt_text config

/-- Character class `[a-z0-9]` of the hostname regex in dsl.py. -/
def isLowerAlnum (c : Char) : Bool :=
  decide (('a' ≤ c ∧ c ≤ 'z') ∨ ('0' ≤ c ∧ c ≤ '9'))

/-- Character class `[a-z0-9-]`. -/
def isLabelChar (c : Char) : Bool := isLowerAlnum c || c == '-'

/-- One DNS label as matched by `[a-z0-9]([a-z0-9-]{0,61}[a-z0-9])?`:
1 to 63 characters, alphanumeric-hyphen, first and last character
alphanumeric. -/
def validLabel : Str → Bool
  | [] => false
  | [c] => isLowerAlnum c
  | c :: rest =>
    isLowerAlnum c && rest.length ≤ 62 && (rest.dropLast.all isLabelChar)
      && isLowerAlnum (rest.getLastD 'a')

/-- The full anchored body `label(\.label)*` of the hostname/domain regex
(dsl.py lines 93 and 101): since a label never contains a dot, the match
decomposes exactly into the dot-separated chunks of the string, each of
which must be a valid label. -/
def hostBody (s : Str) : Bool := (splitOnChar '.' s).all validLabel

/-- `re.match` of an `^...$`-anchored pattern: `$` also matches just
before one trailing newline. -/
def reDollarMatch (body : Str → Bool) (s : Str) : Bool :=
  body s ||
    (match s.getLast? with
     | some c => (c == '\n') && body s.dropLast
     | none => false)

/-- `_is_valid_hostname` (dsl.py lines 89-94): the anchored label pattern
against `hostname.lower()`. -/
def isValidHostname (hostname : Str) : Bool :=
  reDollarMatch hostBody (pyLower hostname)

/-- `_is_valid_domain` (dsl.py lines 97-102): the same pattern, plus
`'.' in domain`. -/
def isValidDomain (domain : Str) : Bool :=
  reDollarMatch hostBody (pyLower domain) && domain.contains '.'

/-- Shape `\d{4}-\d{2}-\d{2}` of the compatibility-date regex. -/
def dateBody (s : Str) : Bool :=
  match s with
  | [y1, y2, y3, y4, h1, m1, m2, h2, d1, d2] =>
    (decide ('0' ≤ y1 ∧ y1 ≤ '9')) && (decide ('0' ≤ y2 ∧ y2 ≤ '9')) &&
    (decide ('0' ≤ y3 ∧ y3 ≤ '9')) && (decide ('0' ≤ y4 ∧ y4 ≤ '9')) &&
    (h1 == '-') &&
    (decide ('0' ≤ m1 ∧ m1 ≤ '9')) && (decide ('0' ≤ m2 ∧ m2 ≤ '9')) &&
    (h2 == '-') &&
    (decide ('0' ≤ d1 ∧ d1 ≤ '9')) && (decide ('0' ≤ d2 ∧ d2 ≤ '9'))
  | _ => false

/-- `_is_valid_date_format` (dsl.py lines 82-86). -/
def isValidDateFormat (s : Str) : Bool := reDollarMatch dateBody s

/-- The distinct `ValueError` messages `_validate_custom_rules` can raise. -/
inductive ValidationError where
  | workerRequired
  | workerNameTooLong
  | badCompatDate
  | invalidHostname
  | invalidZoneName
deriving DecidableEq, Repr

/-- The worker-specific block of `_validate_custom_rules` (dsl.py lines
55-69): required `worker` sub-structure, name length, date format; reads
use `worker.get(key, "")`. -/
def workerCheck (d : Document) : Except ValidationError Unit :=
  if d.intent = some "create_worker_and_bind_domain".toList then
    match d.worker with
    | none => Except.error ValidationError.workerRequired
    | some w =>
      if (w.name.getD []).length > 63 then Except.error ValidationError.workerNameTooLong
      else if ¬ isValidDateFormat (w.compatibility_date.getD []) then
        Except.error ValidationError.badCompatDate
      else Except.ok ()
  else Except.ok ()

/-- `_validate_custom_rules` (dsl.py lines 51-79): the worker-specific
checks first, then the hostname check on `dsl_data.get("hostname", "")`,
then the zone check on `dsl_data.get("zone_name", "")`; the first violated
rule raises. -/
def validate_custom_rules (d : Document) : Except ValidationError Unit :=
  match workerCheck d with
  | Except.error e => Except.error e
  | Except.ok _ =>
    if ¬ isValidHostname (d.hostname.getD []) then Except.error ValidationError.invalidHostname
    else if ¬ isValidDomain (d.zone_name.getD []) then Except.error ValidationError.invalidZoneName
    else Except.ok ()

/-- The intent classification stated by the amended claim: deletion
keywords with a record-type keyword give delete_dns_record; deletion
keywords without a record-type keyword give the worker default and skip
every later check; otherwise DNS, KV and database keywords are tried in
order, with the worker intent as final default.  Written from the amended
wording, to be compared with `classifyIntent` from the source. -/
def intentSpec (prompt_lower : Str) : Str :=
  if anyKeyword deletionWords prompt_lower then
    if anyKeyword recordWords prompt_lower then "delete_dns_record".toList
    else "create_worker_and_bind_domain".toList
  else if anyKeyword dnsWords prompt_lower then "create_dns_record".toList
  else if anyKeyword kvWords prompt_lower then "create_kv_namespace".toList
  else if anyKeyword dbWords prompt_lower then "create_d1_database".toList
  else "create_worker_and_bind_domain".toList

/-- Shape of a hostname that post-processor rule 4 leaves unchanged when
the configured zone is `z`. -/
def GoodHost (z : Str) (ho : Option Str) : Prop :=
  ho = some z ∨ ∃ h, ho = some h ∧ h ≠ ['@'] ∧ h ≠ z ∧
    ((('.' :: z).isSuffixOf h = true) ∨
      ((('.' :: z).isSuffixOf h = false) ∧ (splitOnChar '.' h).length ≤ 1))

/-- A configuration with no default zone. -/
def cfgNone : Config := { default_zone := none }

/-- A configuration whose default zone is `zz.com`. -/
def cfgZZ : Config := { default_zone := some "zz.com".toList }

/-- A configuration whose default zone is `example.com`. -/
def cfgEx : Config := { default_zone := some "example.com".toList }

/-- A DNS-intent document carrying neither `zone_name` nor `hostname`. -/
def docDnsBare : Document :=
  { intent := some "create_dns_record".toList, zone_name := none, hostname := none,
    routing := none, worker := none, bindings := none, dns_record := none }

/-- A KV-intent document with a valid `zone_name` but no `hostname`. -/
def docNoHostname : Document :=
  { intent := some "create_kv_namespace".toList, zone_name := some "example.com".toList,
    hostname := none, routing := none, worker := none, bindings := none, dns_record := none }

/-- A KV-intent document with valid `hostname` and `zone_name`. -/
def docKvOk : Document :=
  { intent := some "create_kv_namespace".toList, zone_name := some "a.bc".toList,
    hostname := some "a.bc".toList, routing := none, worker := none, bindings := none,
    dns_record := none }

/-- A DNS-intent document with a hostname under a foreign zone and no
`zone_name`. -/
def docFooOther : Document :=
  { intent := some "create_dns_record".toList, zone_name := none,
    hostname := some "foo.other.com".toList, routing := none, worker := none,
    bindings := none, dns_record := none }

/-- The document `docFooOther` reconciled against the zone `example.com`. -/
def docFooExpected : Document :=
  { intent := some "create_dns_record".toList, zone_name := some "example.com".toList,
    hostname := some "foo.example.com".toList, routing := none, worker := none,
    bindings := none, dns_record := none }

/-- The document `docFooOther` reconciled against the zone `zz.com`. -/
def docFooZZ : Document :=
  { intent := some "create_dns_record".toList, zone_name := some "zz.com".toList,
    hostname := some "foo.zz.com".toList, routing := none, worker := none,
    bindings := none, dns_record := none }

/-- The worker sub-structure the fallback produces for the hostname
`api.example.com`. -/
def workerApiExample : Worker :=
  { name := some "api-example-com".toList, module := some true,
    compatibility_date := some "2024-01-01".toList }

/-- A hostname of 64 characters. -/
def hostLong : Str :=
  "aaaaaaaaaaaaaaaaaaaaaaaaaaaaaaaaaaaaaaaaaaaaaaaaaaaaaaaaaaaaaaaa".toList

/-- A worker whose name is derived from `hostLong`. -/
def workerLong : Worker :=
  { name := some (deriveWorkerName hostLong), module := some true,
    compatibility_date := some "2024-01-01".toList }

/-- A worker-intent document holding `workerLong`. -/
def docWorkerLong : Document :=
  { intent := some "create_worker_and_bind_domain".toList,
    zone_name := some "example.com".toList, hostname := some "a.example.com".toList,
    routing := none, worker := some workerLong, bindings := none, dns_record := none }

/-! Helper lemmas about the fallback interpreter and the post-processor. -/

theorem fallback_intent (s : Str) (c : Config) :
    (fallbackInterpreter s c).intent = some (classifyIntent (pyLower s)) := by
  simp only [fallbackInterpreter]
  repeat (first | rfl | split)

theorem fallback_worker_branch (s : Str) (c : Config)
    (hi : classifyIntent (pyLower s) = "create_worker_and_bind_domain".toList) :
    (fallbackInterpreter s c).routing = some { mode := "custom_domain".toList } ∧
    (fallbackInterpreter s c).bindings = some { kv := [], d1 := [] } := by
  simp only [fallbackInterpreter]
  rw [if_pos hi]
  exact ⟨rfl, rfl⟩

theorem truthy_isSome {o : Option Str} (h : truthy o = true) : ∃ z, o = some z := by
  cases o with
  | none => simp [truthy] at h
  | some s => exact ⟨s, rfl⟩

theorem fixRoot_intent (d : Document) (c : Config) :
    (ppFixRootZone d c).intent = d.intent := by
  unfold ppFixRootZone; repeat (first | rfl | split)

theorem fixRoot_hostname (d : Document) (c : Config) :
    (ppFixRootZone d c).hostname = d.hostname := by
  unfold ppFixRootZone; repeat (first | rfl | split)

theorem fixRoot_zone_none (d : Document) (c : Config) :
    ((ppFixRootZone d c).zone_name = none) ↔ (d.zone_name = none) := by
  unfold ppFixRootZone
  split
  case isTrue hz =>
    split
    case isTrue ht =>
      obtain ⟨z, hzz⟩ := truthy_isSome ht
      simp [hzz, hz]
    case isFalse ht => simp [hz]
  case isFalse hz => exact Iff.rfl

theorem fillHostname_none_iff (d : Document) :
    (ppFillHostname d = none) ↔
      (isDnsIntent d.intent = true ∧ d.hostname = none ∧ d.zone_name = none) := by
  unfold ppFillHostname
  split
  case isTrue h =>
    obtain ⟨hd, hh⟩ := h
    cases hz : d.zone_name with
    | some z => simp [hz, hd, hh]
    | none => simp [hz, hd, hh]
  case isFalse h =>
    simp only [not_and_or] at h
    rcases h with h | h <;> simp [h]

theorem post_none_iff (d : Document) (c : Config) :
    (post_process_dsl d c = none) ↔ (ppFillHostname (ppFixRootZone d c) = none) := by
  unfold post_process_dsl
  cases h : ppFillHostname (ppFixRootZone d c) <;> simp [h]

theorem upd_zone_self (d : Document) (v : Option Str) (h : d.zone_name = v) :
    { d with zone_name := v } = d := by
  cases d; cases h; rfl

theorem upd_zone_host_self (d : Document) (v w : Option Str)
    (hv : d.zone_name = v) (hw : d.hostname = w) :
    { d with zone_name := v, hostname := w } = d := by
  cases d; cases hv; cases hw; rfl

theorem fillHostname_eq_self (d : Document)
    (h : ¬(isDnsIntent d.intent = true ∧ d.hostname = none)) :
    ppFillHostname d = some d := by
  unfold ppFillHostname
  rw [if_neg h]

theorem fillHostname_some_facts (a e : Document) (h : ppFillHostname a = some e) :
    e.intent = a.intent ∧ e.zone_name = a.zone_name ∧
      (isDnsIntent a.intent = true → e.hostname ≠ none) := by
  unfold ppFillHostname at h
  split at h
  case isTrue hc =>
    cases hza : a.zone_name with
    | none => rw [hza] at h; exact absurd h (by simp)
    | some u =>
      rw [hza] at h
      simp only [Option.some.injEq] at h
      subst h
      simp [hza]
  case isFalse hc =>
    simp only [Option.some.injEq] at h
    subst h
    exact ⟨rfl, rfl, fun hd hh => hc ⟨hd, hh⟩⟩

theorem fillZone_intent (a : Document) (c : Config) :
    (ppFillZone a c).intent = a.intent := by
  unfold ppFillZone; repeat (first | rfl | split)

theorem fillZone_eq_self (a : Document) (c : Config)
    (h : ¬(a.zone_name = none ∧ truthy c.default_zone = true)) :
    ppFillZone a c = a := by
  unfold ppFillZone
  rw [if_neg h]

theorem forceZone_intent (a : Document) (c : Config) :
    (ppForceZone a c).intent = a.intent := by
  simp only [ppForceZone]; repeat (first | rfl | split)

theorem forceZone_eq_self (a : Document) (c : Config)
    (h : ¬(isDnsIntent a.intent = true ∧ truthy c.default_zone = true)) :
    ppForceZone a c = a := by
  unfold ppForceZone
  rw [if_neg h]

theorem fixRoot_zone_not_at (d : Document) (c : Config)
    (ht : truthy c.default_zone = false) :
    (ppFixRootZone d c).zone_name ≠ some ['@'] := by
  unfold ppFixRootZone
  split
  case isTrue hz =>
    rw [ht]
    simp
  case isFalse hz => exact hz

theorem fixRoot_zone_cases (d : Document) (c : Config) :
    ((ppFixRootZone d c).zone_name = d.zone_name ∧ d.zone_name ≠ some ['@'])
    ∨ (truthy c.default_zone = true ∧ (ppFixRootZone d c).zone_name = c.default_zone)
    ∨ (truthy c.default_zone = false
        ∧ (ppFixRootZone d c).zone_name = some ("example.com".toList)) := by
  unfold ppFixRootZone
  split
  case isTrue hz =>
    cases ht : truthy c.default_zone with
    | true => exact Or.inr (Or.inl ⟨rfl, by simp⟩)
    | false => exact Or.inr (Or.inr ⟨rfl, by simp⟩)
  case isFalse hz => exact Or.inl ⟨rfl, hz⟩

theorem fillZone_zone_cases (a : Document) (c : Config) :
    (ppFillZone a c).zone_name = a.zone_name
    ∨ (truthy c.default_zone = true ∧ (ppFillZone a c).zone_name = c.default_zone) := by
  unfold ppFillZone
  split
  case isTrue hc => exact Or.inr ⟨hc.2, rfl⟩
  case isFalse hc => exact Or.inl rfl

theorem fillZone_zone_none (a : Document) (c : Config)
    (h : (ppFillZone a c).zone_name = none) :
    a.zone_name = none ∧ truthy c.default_zone = false := by
  unfold ppFillZone at h
  split at h
  case isTrue hc =>
    obtain ⟨z, hzz⟩ := truthy_isSome hc.2
    rw [hzz] at h
    cases h
  case isFalse hc =>
    refine ⟨h, ?_⟩
    cases ht : truthy c.default_zone with
    | false => rfl
    | true => exact absurd ⟨h, ht⟩ hc

theorem truthy_of_some_ne {c : Config} {z : Str} (hz : c.default_zone = some z)
    (hzne : z ≠ []) : truthy c.default_zone = true := by
  rw [hz]
  simp [truthy, List.isEmpty_iff, hzne]

theorem forceZone_good (a : Document) (c : Config) (z : Str)
    (hz : c.default_zone = some z) (hzne : z ≠ [])
    (hd : isDnsIntent a.intent = true) :
    (ppForceZone a c).zone_name = some z ∧ GoodHost z (ppForceZone a c).hostname := by
  have ht : truthy c.default_zone = true := truthy_of_some_ne hz hzne
  have hgd : c.default_zone.getD [] = z := by rw [hz]; rfl
  simp only [ppForceZone]
  rw [if_pos ⟨hd, ht⟩, hgd]
  split
  case isTrue hh => exact ⟨rfl, Or.inl rfl⟩
  case isFalse hh =>
    push_neg at hh
    obtain ⟨h1, h2, h3⟩ := hh
    cases hah : a.hostname with
    | none => exact absurd hah h1
    | some h =>
      have hne1 : h ≠ ['@'] := fun he => h2 (by rw [hah, he])
      have hne2 : h ≠ z := fun he => h3 (by rw [hah, he])
      simp only [Option.getD_some]
      split
      case isTrue hsuf =>
        split
        case isTrue hp =>
          refine ⟨rfl, Or.inr ⟨(splitOnChar '.' h).headI ++ '.' :: z, rfl, ?_, ?_, Or.inl ?_⟩⟩
          · intro he
            have hlen := congrArg List.length he
            have hzl : z.length ≠ 0 := fun h0 => hzne (List.length_eq_zero.mp h0)
            simp [List.length_append] at hlen
            omega
          · intro he
            have hlen := congrArg List.length he
            simp [List.length_append] at hlen
            omega
          · simp
        case isFalse hp =>
          exact ⟨rfl, Or.inr ⟨h, rfl, hne1, hne2, Or.inr ⟨hsuf, by omega⟩⟩⟩
      case isFalse hsuf =>
        have hsuf' : ('.' :: z).isSuffixOf h = true := by
          cases hb : ('.' :: z).isSuffixOf h with
          | true => rfl
          | false => exact absurd hb hsuf
        exact ⟨rfl, Or.inr ⟨h, rfl, hne1, hne2, Or.inl hsuf'⟩⟩

theorem post_fix_dns (d' : Document) (c : Config) (z : Str)
    (hz : c.default_zone = some z) (hzne : z ≠ [])
    (hd : isDnsIntent d'.intent = true)
    (h1 : d'.zone_name = some z) (h2 : GoodHost z d'.hostname) :
    post_process_dsl d' c = some d' := by
  have ht : truthy c.default_zone = true := truthy_of_some_ne hz hzne
  have hgd : c.default_zone.getD [] = z := by rw [hz]; rfl
  have hfix : ppFixRootZone d' c = d' := by
    unfold ppFixRootZone
    by_cases hz' : d'.zone_name = some ['@']
    · rw [if_pos hz', if_pos ht]
      exact upd_zone_self _ _ (by rw [h1, hz])
    · rw [if_neg hz']
  have hhost : d'.hostname ≠ none := by
    rcases h2 with hsz | ⟨hx, hh, -, -, -⟩
    · rw [hsz]; simp
    · rw [hh]; simp
  have hfill : ppFillHostname d' = some d' :=
    fillHostname_eq_self _ (fun ⟨_, hn⟩ => hhost hn)
  have hfz : ppFillZone d' c = d' :=
    fillZone_eq_self _ _ (fun ⟨hn, _⟩ => by rw [h1] at hn; cases hn)
  have hforce : ppForceZone d' c = d' := by
    simp only [ppForceZone]
    rw [if_pos ⟨hd, ht⟩, hgd]
    rcases h2 with hsz | ⟨h, hh, hne1, hne2, hcase⟩
    · rw [if_pos (Or.inr (Or.inr hsz))]
      exact upd_zone_host_self _ _ _ h1 hsz
    · rw [if_neg (by rw [hh]; push_neg; exact ⟨by simp, by simpa using hne1, by simpa using hne2⟩)]
      rw [hh]
      simp only [Option.getD_some]
      rcases hcase with hsuf | ⟨hsuf, hlen⟩
      · rw [if_neg (by simp [hsuf])]
        exact upd_zone_host_self _ _ _ h1 hh
      · rw [if_pos hsuf, if_neg (by omega)]
        exact upd_zone_host_self _ _ _ h1 hh
  unfold post_process_dsl
  rw [hfix, hfill]
  simp [hfz, hforce]

theorem post_fix_dns_nt (d' : Document) (c : Config)
    (ht : truthy c.default_zone = false)
    (hh : d'.hostname ≠ none)
    (hz' : d'.zone_name ≠ some ['@']) :
    post_process_dsl d' c = some d' := by
  have hfix : ppFixRootZone d' c = d' := by unfold ppFixRootZone; rw [if_neg hz']
  have hfill : ppFillHostname d' = some d' :=
    fillHostname_eq_self _ (fun ⟨_, hn⟩ => hh hn)
  have hfz : ppFillZone d' c = d' :=
    fillZone_eq_self _ _ (fun ⟨_, htr⟩ => by rw [ht] at htr; cases htr)
  have hforce : ppForceZone d' c = d' :=
    forceZone_eq_self _ _ (fun ⟨_, htr⟩ => by rw [ht] at htr; cases htr)
  unfold post_process_dsl
  rw [hfix, hfill]
  simp [hfz, hforce]

theorem post_fix_nondns (d' : Document) (c : Config)
    (hd : isDnsIntent d'.intent = false)
    (h1 : d'.zone_name = none → truthy c.default_zone = false)
    (h2 : d'.zone_name = some ['@'] →
      truthy c.default_zone = true ∧ c.default_zone = d'.zone_name) :
    post_process_dsl d' c = some d' := by
  have hfix : ppFixRootZone d' c = d' := by
    unfold ppFixRootZone
    split
    case isTrue hzat =>
      obtain ⟨ht, he⟩ := h2 hzat
      rw [if_pos ht]
      exact upd_zone_self _ _ he.symm
    case isFalse hzat => rfl
  have hfill : ppFillHostname d' = some d' :=
    fillHostname_eq_self _ (fun ⟨hdd, _⟩ => by rw [hd] at hdd; cases hdd)
  have hfz : ppFillZone d' c = d' := by
    apply fillZone_eq_self
    rintro ⟨hn, htr⟩
    rw [h1 hn] at htr
    cases htr
  have hforce : ppForceZone d' c = d' :=
    forceZone_eq_self _ _ (fun ⟨hdd, _⟩ => by rw [hd] at hdd; cases hdd)
  unfold post_process_dsl
  rw [hfix, hfill]
  simp [hfz, hforce]

theorem workerCheck_nonworker (d : Document)
    (hw : d.intent ≠ some ("create_worker_and_bind_domain".toList)) :
    workerCheck d = Except.ok () := by
  unfold workerCheck
  rw [if_neg hw]

theorem vrules_ne_tooLong (d : Document)
    (hwc : workerCheck d ≠ Except.error ValidationError.workerNameTooLong) :
    validate_custom_rules d ≠ Except.error ValidationError.workerNameTooLong := by
  unfold validate_custom_rules
  cases hc : workerCheck d with
  | error e =>
    rw [hc] at hwc
    intro hcon
    exact hwc (by injection hcon with he; rw [he])
  | ok u =>
    split
    · rename_i heq
      cases heq
    · split
      · simp
      · split <;> simp

/-! Claim theorems. -/

/-- C1, counterexample: for the prompt `dns a.bc` under default zone
`zz.com`, the document `to_dsl` hands onward on model failure is not the
post-processed fallback result: post-processing the fallback output
changes its zone and hostname, but `to_dsl` returns the raw fallback
output. -/
theorem C1_counterexample :
    post_process_dsl (fallbackInterpreter "dns a.bc".toList cfgZZ) cfgZZ ≠
      some (to_dsl none "dns a.bc".toList cfgZZ) := by decide

/-- C1, amended: on model failure `to_dsl` returns the fallback result
directly, without post-processing; the post-processor runs only on the
model-backed path, whose successful post-processing result is what is
returned there. -/
theorem C1_fallback_not_postprocessed (m e : Document) (t : Str) (c : Config)
    (h : post_process_dsl m c = some e) :
    to_dsl (some m) t c = e ∧ to_dsl none t c = fallbackInterpreter t c := by
  constructor
  · show (match post_process_dsl m c with
      | some d => d
      | none => fallbackInterpreter t c) = e
    rw [h]
  · rfl

theorem C1_fallback_not_postprocessed_witness :
    to_dsl (some docKvOk) [] cfgZZ = docKvOk ∧
      to_dsl none [] cfgZZ = fallbackInterpreter [] cfgZZ :=
  C1_fallback_not_postprocessed docKvOk docKvOk [] cfgZZ (by decide)

/-- C2, counterexample: the post-processor is not total: on a DNS-intent
document with neither hostname nor zone_name it raises KeyError, here with
a default zone configured. -/
theorem C2_counterexample : post_process_dsl docDnsBare cfgEx = none := by decide

/-- C2, amended: the post-processor fails exactly on the documents whose
intent is a DNS intent and which carry neither a hostname nor a zone_name;
on every other document, under every configuration, it returns a
reconciled document. -/
theorem C2_postprocess_failure_iff (d : Document) (c : Config) :
    (post_process_dsl d c = none) ↔
      (isDnsIntent d.intent = true ∧ d.hostname = none ∧ d.zone_name = none) := by
  rw [post_none_iff, fillHostname_none_iff, fixRoot_intent, fixRoot_hostname,
    fixRoot_zone_none]

/-- C3, counterexample: the semantic checks are not conditional on
presence: a document with no hostname at all is rejected by the hostname
rule, because the absent field is read as the empty string. -/
theorem C3_counterexample :
    validate_custom_rules docNoHostname = Except.error ValidationError.invalidHostname := by
  rfl

/-- C3, amended: the hostname and zone_name rules are enforced
unconditionally, with an absent field read as the empty string; since the
empty string never satisfies the label rules, a document lacking hostname
or zone_name always fails validation; a present field is checked
case-insensitively against the label rules, the zone additionally needing
a dot. -/
theorem C3_validator_unconditional (d : Document)
    (hw : d.intent ≠ some ("create_worker_and_bind_domain".toList)) :
    (validate_custom_rules d = Except.ok () ↔
      (isValidHostname (d.hostname.getD []) = true ∧
        isValidDomain (d.zone_name.getD []) = true))
    ∧ isValidHostname [] = false ∧ isValidDomain [] = false := by
  refine ⟨?_, by decide, by decide⟩
  unfold validate_custom_rules
  rw [workerCheck_nonworker d hw]
  by_cases hh : isValidHostname (d.hostname.getD []) = true
  · by_cases hzz : isValidDomain (d.zone_name.getD []) = true
    · simp [hh, hzz]
    · simp [hh, hzz]
  · simp [hh]

theorem C3_validator_unconditional_witness :
    (validate_custom_rules docKvOk = Except.ok () ↔
      (isValidHostname (docKvOk.hostname.getD []) = true ∧
        isValidDomain (docKvOk.zone_name.getD []) = true))
    ∧ isValidHostname [] = false ∧ isValidDomain [] = false :=
  C3_validator_unconditional docKvOk (by decide)

/-- C4, counterexample: the prompt `delete database` contains a database
keyword and a deletion keyword but no record-type, DNS or KV keyword, yet
the fallback classifies it as the worker default, not as
create_d1_database: a deletion keyword without a record-type keyword
skips all later checks. -/
theorem C4_counterexample :
    anyKeyword dbWords (pyLower "delete database".toList) = true ∧
    anyKeyword deletionWords (pyLower "delete database".toList) = true ∧
    anyKeyword recordWords (pyLower "delete database".toList) = false ∧
    anyKeyword dnsWords (pyLower "delete database".toList) = false ∧
    anyKeyword kvWords (pyLower "delete database".toList) = false ∧
    (fallbackInterpreter "delete database".toList cfgNone).intent ≠
      some ("create_d1_database".toList) ∧
    (fallbackInterpreter "delete database".toList cfgNone).intent =
      some ("create_worker_and_bind_domain".toList) := by decide

/-- C4, amended: the fallback classifies intent by the keyword cascade in
which a deletion keyword combined with a record-type keyword gives
delete_dns_record, a deletion keyword without a record-type keyword gives
the worker default with all later checks skipped, and otherwise the DNS,
KV and database keyword checks are tried in order with the worker intent
as final default. -/
theorem C4_intent_priority (s : Str) (c : Config) :
    (fallbackInterpreter s c).intent = some (intentSpec (pyLower s)) := by
  rw [fallback_intent]
  rfl

/-- C5: the fallback interpreter is total: it is a total function in this
embedding (every operation it performs is total), and for every input
string and every configuration the returned document carries an intent, a
zone_name and a hostname. -/
theorem C5_fallback_total (s : Str) (c : Config) :
    (fallbackInterpreter s c).intent.isSome = true ∧
    (fallbackInterpreter s c).zone_name.isSome = true ∧
    (fallbackInterpreter s c).hostname.isSome = true := by
  refine ⟨?_, ?_, ?_⟩ <;> (simp only [fallbackInterpreter]; repeat (first | rfl | split))

/-- C6: with a default zone configured, the post-processor is idempotent:
whenever one application succeeds, applying it again to the result returns
that result unchanged. -/
theorem C6_postprocess_idempotent (d d' : Document) (c : Config) (z : Str)
    (hz : c.default_zone = some z)
    (h : post_process_dsl d c = some d') :
    post_process_dsl d' c = some d' := by
  unfold post_process_dsl at h
  cases hfill : ppFillHostname (ppFixRootZone d c) with
  | none => rw [hfill] at h; cases h
  | some d2 =>
    rw [hfill] at h
    have hd'eq : ppForceZone (ppFillZone d2 c) c = d' := Option.some.inj h
    obtain ⟨hi2, hzo2, hho2⟩ := fillHostname_some_facts _ _ hfill
    have hifix := fixRoot_intent d c
    have hint : d'.intent = d.intent := by
      rw [← hd'eq, forceZone_intent, fillZone_intent, hi2, hifix]
    by_cases hdns : isDnsIntent d.intent = true
    · by_cases ht : truthy c.default_zone = true
      · have hzne : z ≠ [] := by
          rw [hz] at ht
          simpa [truthy, List.isEmpty_iff] using ht
        have hda : isDnsIntent (ppFillZone d2 c).intent = true := by
          rw [fillZone_intent, hi2, hifix]; exact hdns
        have hg := forceZone_good (ppFillZone d2 c) c z hz hzne hda
        exact post_fix_dns d' c z hz hzne (by rw [hint]; exact hdns)
          (by rw [← hd'eq]; exact hg.1) (by rw [← hd'eq]; exact hg.2)
      · have htf : truthy c.default_zone = false := by
          cases hb : truthy c.default_zone with
          | false => rfl
          | true => exact absurd hb ht
        have hd2h : d2.hostname ≠ none := hho2 (by rw [hifix]; exact hdns)
        have e1 : ppFillZone d2 c = d2 :=
          fillZone_eq_self _ _ (fun ⟨_, htr⟩ => by rw [htf] at htr; cases htr)
        have e2 : ppForceZone d2 c = d2 :=
          forceZone_eq_self _ _ (fun ⟨_, htr⟩ => by rw [htf] at htr; cases htr)
        have hdd2 : d' = d2 := by rw [← hd'eq, e1, e2]
        refine post_fix_dns_nt d' c htf ?_ ?_
        · rw [hdd2]; exact hd2h
        · rw [hdd2, hzo2]
          exact fixRoot_zone_not_at d c htf
    · have hdnsf : isDnsIntent d.intent = false := by
        cases hb : isDnsIntent d.intent with
        | false => rfl
        | true => exact absurd hb hdns
      have e0 : d2 = ppFixRootZone d c := by
        have hself := fillHostname_eq_self (ppFixRootZone d c)
          (fun ⟨hdd, _⟩ => by rw [fixRoot_intent, hdnsf] at hdd; cases hdd)
        rw [hself] at hfill
        exact (Option.some.inj hfill).symm
      have e2 : ppForceZone (ppFillZone d2 c) c = ppFillZone d2 c :=
        forceZone_eq_self _ _
          (fun ⟨hdd, _⟩ => by rw [fillZone_intent, e0, fixRoot_intent, hdnsf] at hdd; cases hdd)
      have hd'fz : d' = ppFillZone d2 c := by rw [← hd'eq, e2]
      refine post_fix_nondns d' c (by rw [hint]; exact hdnsf) ?_ ?_
      · intro hn
        exact (fillZone_zone_none d2 c (by rw [← hd'fz]; exact hn)).2
      · intro hat
        rcases fillZone_zone_cases d2 c with hc1 | ⟨ht', hcz⟩
        · rcases fixRoot_zone_cases d c with ⟨hu, hne⟩ | ⟨ht', hcz⟩ | ⟨ht', hex⟩
          · rw [hd'fz, hc1, e0, hu] at hat
            exact absurd hat hne
          · refine ⟨ht', ?_⟩
            rw [hd'fz, hc1, e0, hcz]
          · rw [hd'fz, hc1, e0, hex] at hat
            simp at hat
        · refine ⟨ht', ?_⟩
          rw [hd'fz, hcz]

theorem C6_postprocess_idempotent_witness :
    post_process_dsl docFooZZ cfgZZ = some docFooZZ :=
  C6_postprocess_idempotent docFooOther docFooZZ cfgZZ ("zz.com".toList) rfl (by decide)

/-- C7: given a create_dns_record document whose hostname lies under a
foreign zone and no zone_name, with default zone example.com, the
post-processor rewrites the hostname to foo.example.com and the zone_name
to example.com. -/
theorem C7_postprocess_scenario :
    post_process_dsl docFooOther cfgEx = some docFooExpected := by decide

/-- C8: on the prompt about creating a Worker connected to
api.example.com, with no default zone configured, the fallback produces
the worker-intent document with zone example.com, hostname
api.example.com and the literal worker sub-structure of the scenario. -/
theorem C8_fallback_worker_scenario :
    (fallbackInterpreter "Create a Worker and connect it to api.example.com".toList
        cfgNone).intent = some ("create_worker_and_bind_domain".toList) ∧
    (fallbackInterpreter "Create a Worker and connect it to api.example.com".toList
        cfgNone).zone_name = some ("example.com".toList) ∧
    (fallbackInterpreter "Create a Worker and connect it to api.example.com".toList
        cfgNone).hostname = some ("api.example.com".toList) ∧
    (fallbackInterpreter "Create a Worker and connect it to api.example.com".toList
        cfgNone).worker = some workerApiExample := by decide

/-- C9: a worker name derived from a hostname longer than 63 characters is
truncated to exactly 63 characters, and a document carrying such a worker
name is never rejected by the validator rule limiting worker.name to 63
characters. -/
theorem C9_worker_name_truncated (h : Str) (d : Document) (w : Worker)
    (hl : 63 < h.length) (hw : d.worker = some w)
    (hn : w.name = some (deriveWorkerName h)) :
    (deriveWorkerName h).length = 63 ∧
      validate_custom_rules d ≠ Except.error ValidationError.workerNameTooLong := by
  have hlen : (deriveWorkerName h).length = 63 := by
    simp only [deriveWorkerName, List.length_map]
    rw [if_pos (by omega)]
    simp only [List.length_take, List.length_map]
    omega
  refine ⟨hlen, vrules_ne_tooLong d ?_⟩
  unfold workerCheck
  by_cases hi : d.intent = some ("create_worker_and_bind_domain".toList)
  · rw [if_pos hi]
    simp only [hw, hn, Option.getD_some, hlen]
    rw [if_neg (by omega)]
    split <;> simp
  · rw [if_neg hi]
    simp

theorem C9_worker_name_truncated_witness :
    (deriveWorkerName hostLong).length = 63 ∧
      validate_custom_rules docWorkerLong ≠
        Except.error ValidationError.workerNameTooLong :=
  C9_worker_name_truncated hostLong docWorkerLong workerLong (by decide) rfl rfl

/-- C10: whenever the fallback classifies the worker intent, the returned
document additionally carries a routing sub-structure with mode
custom_domain and a bindings sub-structure with empty kv and d1 lists. -/
theorem C10_worker_extra_fields (s : Str) (c : Config)
    (h : (fallbackInterpreter s c).intent = some ("create_worker_and_bind_domain".toList)) :
    (fallbackInterpreter s c).routing = some { mode := "custom_domain".toList } ∧
    (fallbackInterpreter s c).bindings = some { kv := [], d1 := [] } := by
  have hi : classifyIntent (pyLower s) = "create_worker_and_bind_domain".toList := by
    have hfi := fallback_intent s c
    rw [hfi] at h
    exact Option.some.inj h
  exact fallback_worker_branch s c hi

theorem C10_worker_extra_fields_witness :
    (fallbackInterpreter [] cfgNone).routing = some { mode := "custom_domain".toList } ∧
    (fallbackInterpreter [] cfgNone).bindings = some { kv := [], d1 := [] } :=
  C10_worker_extra_fields [] cfgNone (by decide)
